import Mathlib

/-!
Shallow embedding of the loan-application service in `src/main.py`:
its validators (`validate_age`, `validate_loan_amount`), the decision
engine (`calculate_lvr`, `process_application`), the record store
(`load_applications`, `save_applications`) and the two endpoints
(`create_application`, `get_applications`).

Python floats are modelled as exact rationals (`ℚ`); Python string
dates are parsed into a `Date` structure mirroring
`datetime.strptime(dob, "%Y-%m-%d")`; the JSON dictionaries persisted
in `applications.json` are modelled as `StoredRecord`, a structure of
optional fields (a missing key is `none`), matching the
`dict.get(key, default)` accesses on the read path.  External effects
(the clock, uuid generation, file-system success or failure) enter as
explicit parameters.
-/

namespace LoanApp

/-- A calendar date, the result of `datetime.strptime(s, "%Y-%m-%d").date()`. -/
structure Date where
  year : ℕ
  month : ℕ
  day : ℕ
deriving DecidableEq, Repr

/-- Gregorian leap-year rule, as used by Python `datetime` date validation. -/
def isLeap (y : ℕ) : Bool :=
  (y % 4 == 0 && y % 100 != 0) || (y % 400 == 0)

/-- Number of days in a month, as enforced by Python `datetime` date validation. -/
def daysInMonth (y m : ℕ) : ℕ :=
  if m = 2 then (if isLeap y then 29 else 28)
  else if m = 4 ∨ m = 6 ∨ m = 9 ∨ m = 11 then 30
  else 31

/-- A (year, month, day) triple that `datetime` accepts as a real date. -/
def isValidDate (d : Date) : Bool :=
  1 ≤ d.year && 1 ≤ d.month && d.month ≤ 12 && 1 ≤ d.day && d.day ≤ daysInMonth d.year d.month

/-- Split a character list on the `-` separator (semantics of
`str.split` on a single-character separator). -/
def splitDash : List Char → List (List Char)
  | [] => [[]]
  | c :: cs =>
    if c = '-' then [] :: splitDash cs
    else
      match splitDash cs with
      | [] => [[c]]
      | g :: gs => (c :: g) :: gs

/-- One numeric `strptime` field: between 1 and `maxLen` decimal digits. -/
def parseField (maxLen : ℕ) (cs : List Char) : Option ℕ :=
  if cs ≠ [] ∧ cs.length ≤ maxLen ∧ cs.all Char.isDigit then
    some (cs.foldl (fun n c => n * 10 + (c.toNat - 48)) 0)
  else none

/-- `datetime.strptime(s, "%Y-%m-%d").date()`: a 1-4 digit year, a `-`,
a 1-2 digit month, a `-`, a 1-2 digit day, forming a real calendar date;
`none` models the `ValueError` raised on an unparsable string. -/
def parseDate (s : String) : Option Date :=
  match splitDash s.data with
  | [ys, ms, ds] =>
    match parseField 4 ys, parseField 2 ms, parseField 2 ds with
    | some y, some m, some d =>
      if isValidDate ⟨y, m, d⟩ then some ⟨y, m, d⟩ else none
    | _, _, _ => none
  | _ => none

/-- The calendar day after `d` (used to state the "one day short of 18
years" boundary: a birthdate one day short of 18 years before `today` is
the date 18 years before the day after `today`). -/
def nextDay (d : Date) : Date :=
  if d.day < daysInMonth d.year d.month then ⟨d.year, d.month, d.day + 1⟩
  else if d.month < 12 then ⟨d.year, d.month + 1, 1⟩
  else ⟨d.year + 1, 1, 1⟩

/-- Python tuple comparison `(a1, a2) < (b1, b2)`: lexicographic. -/
def monthDayLt (a b : ℕ × ℕ) : Bool :=
  a.1 < b.1 || (a.1 == b.1 && a.2 < b.2)

/-- `today.year - birthdate.year - ((today.month, today.day) < (birthdate.month, birthdate.day))`
from `ApplicationIn.validate_age` (src/main.py line 38). -/
def computeAge (today birth : Date) : ℤ :=
  (today.year : ℤ) - (birth.year : ℤ) -
    (if monthDayLt (today.month, today.day) (birth.month, birth.day) then 1 else 0)

/-- `ApplicationIn.validate_age` (src/main.py lines 33-44): parse the
date-of-birth string strictly as `YYYY-MM-DD`, compute the age as of
`today`, and accept exactly when the string parses and the age is at
least 18 (`true` = the validator returns `dob`; `false` = it raises
`ValueError`, whether from parsing or from the age check). -/
def validate_age (today : Date) (dob : String) : Bool :=
  match parseDate dob with
  | some b => decide (18 ≤ computeAge today b)
  | none => false

/-- `ApplicationIn.validate_loan_amount` (src/main.py lines 52-58):
`expected = max(0, carValue - depositAmount)`; raise
`ValueError("Loan amount must equal car value minus deposit")` when
`abs(v - expected) > 0.01`, else return `v`. -/
def validate_loan_amount (v carValue depositAmount : ℚ) : Except String ℚ :=
  if |v - max 0 (carValue - depositAmount)| > 0.01 then
    Except.error "Loan amount must equal car value minus deposit"
  else
    Except.ok v

/-- The `ApplicationIn` pydantic model (src/main.py lines 22-31). -/
structure ApplicationIn where
  name : String
  dateOfBirth : String
  address : String
  driverLicense : String
  employmentStatus : String
  income : ℚ
  carValue : ℚ
  depositAmount : ℚ
  loanAmount : ℚ
deriving DecidableEq, Repr

/-- Pydantic validation of an `ApplicationIn` body: both field validators
pass (the remaining fields have no validators and are accepted as given). -/
def validateApplication (today : Date) (a : ApplicationIn) : Bool :=
  validate_age today a.dateOfBirth &&
    (validate_loan_amount a.loanAmount a.carValue a.depositAmount).toBool

/-- A Python float that is either finite or `float('inf')`, the codomain
of `calculate_lvr`. -/
inductive Lvr where
  | val (q : ℚ)
  | inf
deriving DecidableEq, Repr

/-- `lvr > t` on the result of `calculate_lvr`; `float('inf') > t` is true. -/
def Lvr.gt (l : Lvr) (t : ℚ) : Bool :=
  match l with
  | .val q => decide (t < q)
  | .inf => true

/-- `calculate_lvr` (src/main.py lines 105-107):
`(loan_amount / income) * 100 if income > 0 else float('inf')`. -/
def calculate_lvr (loan_amount income : ℚ) : Lvr :=
  if 0 < income then .val (loan_amount / income * 100) else .inf

/-- The `DecisionResult` pydantic model (src/main.py lines 78-81). -/
structure DecisionResult where
  status : String
  decisionCode : Option String
  message : String
deriving DecidableEq, Repr

/-- `process_application` (src/main.py lines 109-129). -/
def process_application (application : ApplicationIn) : DecisionResult :=
  let lvr := calculate_lvr application.loanAmount application.income
  if application.employmentStatus = "unemployed" then
    { status := "rejected"
      decisionCode := some "D_017"
      message := "Application declined due to unemployment status." }
  else if lvr.gt 150 then
    { status := "rejected"
      decisionCode := some "R_040"
      message := "Application declined due to high LVR ratio." }
  else
    { status := "approved"
      decisionCode := none
      message := "Application has been approved!" }

/-- A JSON object persisted in `applications.json`: each key may be
missing (`none`); `decisionCode` being JSON `null` and the key being
absent are identified, as `dict.get("decisionCode")` treats them alike. -/
structure StoredRecord where
  id : Option String
  name : Option String
  dateOfBirth : Option String
  address : Option String
  driverLicense : Option String
  employmentStatus : Option String
  income : Option ℚ
  carValue : Option ℚ
  depositAmount : Option ℚ
  loanAmount : Option ℚ
  decisionCode : Option String
  status : Option String
  createdAt : Option String
deriving DecidableEq, Repr

/-- The state of `applications.json` on disk: missing file, a file whose
contents `json.load` cannot decode, or a decodable list of records. -/
inductive DiskState where
  | absent
  | corrupt
  | ok (records : List StoredRecord)
deriving DecidableEq, Repr

/-- `load_applications` (src/main.py lines 86-94): return the decoded
list; a missing file or a `JSONDecodeError` is logged and yields `[]`. -/
def load_applications (disk : DiskState) : List StoredRecord :=
  match disk with
  | .absent => []
  | .corrupt => []
  | .ok records => records

/-- `save_applications` (src/main.py lines 96-103): overwrite the file
with `applications`; any write failure (modelled by the `fails` flag) is
caught, logged and swallowed, leaving the previous disk state. -/
def save_applications (fails : Bool) (applications : List StoredRecord) (disk : DiskState) :
    DiskState :=
  if fails then disk else .ok applications

/-- The `new_app` dictionary built in `create_application`
(src/main.py lines 138-142): the input fields plus a fresh `id`, the
decision `status` and `decisionCode`, and `createdAt`. -/
def new_app (a : ApplicationIn) (freshId createdAt : String) : StoredRecord :=
  let result := process_application a
  { id := some freshId
    name := some a.name
    dateOfBirth := some a.dateOfBirth
    address := some a.address
    driverLicense := some a.driverLicense
    employmentStatus := some a.employmentStatus
    income := some a.income
    carValue := some a.carValue
    depositAmount := some a.depositAmount
    loanAmount := some a.loanAmount
    decisionCode := result.decisionCode
    status := some result.status
    createdAt := some createdAt }

/-- `create_application` (src/main.py lines 131-149), on a request body
that already passed pydantic validation: decide, build `new_app` (with
`uuid.uuid4()` and `datetime.utcnow()` passed in as `freshId` and
`createdAt`), load the collection, append, save (with `saveFails`
modelling a write error, which `save_applications` swallows), and return
the new record with HTTP 201. -/
def create_application (a : ApplicationIn) (freshId createdAt : String)
    (disk : DiskState) (saveFails : Bool) : StoredRecord × DiskState :=
  let newApp := new_app a freshId createdAt
  let apps := load_applications disk
  let apps' := apps ++ [newApp]
  (newApp, save_applications saveFails apps' disk)

/-- The `ApplicationSummary` pydantic model (src/main.py lines 67-75). -/
structure ApplicationSummary where
  id : String
  name : String
  employmentStatus : String
  income : ℚ
  loanAmount : ℚ
  decisionCode : Option String
  status : String
  createdAt : String
deriving DecidableEq, Repr

/-- The summary dictionary built for one stored record in
`get_applications` (src/main.py lines 165-174): `app_item.get(key, default)`
for each field, with `datetime.utcnow().isoformat()` (passed in as `now`)
as the default for `createdAt`. -/
def toSummary (now : String) (r : StoredRecord) : ApplicationSummary :=
  { id := r.id.getD ""
    name := r.name.getD ""
    employmentStatus := r.employmentStatus.getD ""
    income := r.income.getD 0
    loanAmount := r.loanAmount.getD 0
    decisionCode := r.decisionCode
    status := r.status.getD ""
    createdAt := r.createdAt.getD now }

/-- `get_applications` (src/main.py lines 157-182): load the collection
and project every record to a summary. -/
def get_applications (now : String) (disk : DiskState) : List ApplicationSummary :=
  (load_applications disk).map (toSummary now)

/-- Modelled from the spec: the LVR formula of spec section 4.2,
"`lvr = (loanAmount / income) * 100` (defined as `+infinity` when
`income == 0`)" — infinite only at `income == 0`, finite otherwise.
Stated for comparison with `calculate_lvr`, the source definition. -/
def specLvr (loan_amount income : ℚ) : Lvr :=
  if income = 0 then .inf else .val (loan_amount / income * 100)

/-- Modelled from the spec: the decision function described by claim C1
and spec section 4.2, identical to `process_application` except that its
LVR is `specLvr`. Stated for comparison with the source definition. -/
def specDecide (application : ApplicationIn) : DecisionResult :=
  let lvr := specLvr application.loanAmount application.income
  if application.employmentStatus = "unemployed" then
    { status := "rejected"
      decisionCode := some "D_017"
      message := "Application declined due to unemployment status." }
  else if lvr.gt 150 then
    { status := "rejected"
      decisionCode := some "R_040"
      message := "Application declined due to high LVR ratio." }
  else
    { status := "approved"
      decisionCode := none
      message := "Application has been approved!" }

/-! ## Claims -/

/-- Claim C10: `calculate_lvr` returns `float('inf')` for every
`income <= 0`, not only `income == 0`; hence every application whose
`employmentStatus` is not `"unemployed"` and whose `income` is negative
is rejected with code `R_040`, regardless of `loanAmount`. -/
theorem C10_lvr_inf_on_nonpositive_income :
    (∀ loan income : ℚ, income ≤ 0 → calculate_lvr loan income = Lvr.inf) ∧
    (∀ a : ApplicationIn, a.employmentStatus ≠ "unemployed" → a.income < 0 →
      process_application a =
        ⟨"rejected", some "R_040", "Application declined due to high LVR ratio."⟩) := by
  constructor
  · intro loan income h
    simp [calculate_lvr, not_lt.mpr h]
  · intro a hemp hinc
    simp [process_application, calculate_lvr, not_lt.mpr (le_of_lt hinc), hemp, Lvr.gt]

/-- Witness for C10 at `income = -1`, `loanAmount = 0`. -/
theorem C10_witness :
    calculate_lvr 0 (-1) = Lvr.inf ∧
    process_application ⟨"Ana", "1990-01-01", "1 Road", "DL1", "employed", -1, 0, 0, 0⟩ =
      ⟨"rejected", some "R_040", "Application declined due to high LVR ratio."⟩ :=
  ⟨C10_lvr_inf_on_nonpositive_income.1 0 (-1) (by norm_num),
   C10_lvr_inf_on_nonpositive_income.2 _ (by decide) (by norm_num)⟩

/-- Claim C1 fails as stated: the input with `employmentStatus = "employed"`,
`income = -1` and `loanAmount = 0` passes validation (evaluated on
2026-10-12), yet `process_application` does not agree with the decision
function described by the claim (`specDecide`, infinite LVR only at
`income == 0`): the claim gives `lvr = (0 / -1) * 100 = 0 ≤ 150`, hence
approved, while the code rejects with `R_040`. -/
theorem C1_counterexample :
    validateApplication ⟨2026, 10, 12⟩ ⟨"Ana", "1990-01-01", "1 Road", "DL1", "employed", -1, 0, 0, 0⟩ = true ∧
    process_application ⟨"Ana", "1990-01-01", "1 Road", "DL1", "employed", -1, 0, 0, 0⟩ ≠
      specDecide ⟨"Ana", "1990-01-01", "1 Road", "DL1", "employed", -1, 0, 0, 0⟩ := by
  constructor
  · have h : validate_age ⟨2026, 10, 12⟩ "1990-01-01" = true := by decide
    norm_num [validateApplication, h, validate_loan_amount, Except.toBool, abs_le]
  · have hs : ("employed" = "unemployed") = False := by simp
    have h1 : process_application ⟨"Ana", "1990-01-01", "1 Road", "DL1", "employed", -1, 0, 0, 0⟩ =
        ⟨"rejected", some "R_040", "Application declined due to high LVR ratio."⟩ := by
      norm_num [process_application, calculate_lvr, Lvr.gt, hs]
    have h2 : specDecide ⟨"Ana", "1990-01-01", "1 Road", "DL1", "employed", -1, 0, 0, 0⟩ =
        ⟨"approved", none, "Application has been approved!"⟩ := by
      norm_num [specDecide, specLvr, Lvr.gt, hs]
    rw [h1, h2]
    decide

/-- Claim C1 (amended): the decision is a pure function of the input,
rules in fixed order — `employmentStatus = "unemployed"` always yields
`rejected`/`D_017`; otherwise, with `lvr = (loanAmount / income) * 100`
taken as `+infinity` when `income ≤ 0` (not only when `income == 0`),
`lvr > 150` yields `rejected`/`R_040`, and otherwise the application is
approved with no decision code. -/
theorem C1_decision_rules (a : ApplicationIn) :
    (a.employmentStatus = "unemployed" →
      process_application a =
        ⟨"rejected", some "D_017", "Application declined due to unemployment status."⟩) ∧
    (a.employmentStatus ≠ "unemployed" →
      (a.income ≤ 0 ∨ (0 < a.income ∧ 150 < a.loanAmount / a.income * 100) →
        process_application a =
          ⟨"rejected", some "R_040", "Application declined due to high LVR ratio."⟩) ∧
      (0 < a.income → a.loanAmount / a.income * 100 ≤ 150 →
        process_application a =
          ⟨"approved", none, "Application has been approved!"⟩)) := by
  refine ⟨fun h => by simp [process_application, h], fun hne => ⟨fun hcase => ?_, fun hpos hle => ?_⟩⟩
  · rcases hcase with hle | ⟨hpos, hgt⟩
    · simp [process_application, hne, calculate_lvr, not_lt.mpr hle, Lvr.gt]
    · simp [process_application, hne, calculate_lvr, hpos, Lvr.gt, hgt]
  · simp [process_application, hne, calculate_lvr, hpos, Lvr.gt, not_lt.mpr hle]

/-- Witness for C1 (amended) at the three scenario inputs of the spec:
unemployed, high LVR (1500), and low LVR (30). -/
theorem C1_witness :
    process_application ⟨"Ana", "1990-01-01", "1 Road", "DL1", "unemployed", 50000, 20000, 5000, 15000⟩ =
      ⟨"rejected", some "D_017", "Application declined due to unemployment status."⟩ ∧
    process_application ⟨"Ana", "1990-01-01", "1 Road", "DL1", "employed", 1000, 20000, 5000, 15000⟩ =
      ⟨"rejected", some "R_040", "Application declined due to high LVR ratio."⟩ ∧
    process_application ⟨"Ana", "1990-01-01", "1 Road", "DL1", "employed", 50000, 20000, 5000, 15000⟩ =
      ⟨"approved", none, "Application has been approved!"⟩ :=
  ⟨(C1_decision_rules _).1 rfl,
   ((C1_decision_rules _).2 (by decide)).1 (Or.inr ⟨by norm_num, by norm_num⟩),
   ((C1_decision_rules _).2 (by decide)).2 (by norm_num) (by norm_num)⟩

/-- Claim C3 fails as stated: with `carValue = 0` and `depositAmount = 1`,
the claim says `loanAmount = carValue - depositAmount + 0.01 = -0.99`
passes validation, but the expected value is `max(0, -1) = 0` and
`|-0.99 - 0| = 0.99 > 0.01`, so the code rejects it. -/
theorem C3_counterexample :
    validate_loan_amount (0 - 1 + 0.01) 0 1 =
      Except.error "Loan amount must equal car value minus deposit" := by
  norm_num [validate_loan_amount, lt_abs]

/-- Claim C3 (amended): the cross-field check accepts exactly when
`|loanAmount - max(0, carValue - depositAmount)| ≤ 0.01`; in particular,
whenever `depositAmount ≤ carValue`, `loanAmount = carValue -
depositAmount + 0.01` passes and `carValue - depositAmount + 0.02` fails
with the loan-amount-mismatch error. -/
theorem C3_loan_amount_tolerance (v carValue depositAmount : ℚ) :
    ((validate_loan_amount v carValue depositAmount).toBool = true ↔
      |v - max 0 (carValue - depositAmount)| ≤ 0.01) ∧
    (depositAmount ≤ carValue →
      (validate_loan_amount (carValue - depositAmount + 0.01) carValue depositAmount).toBool = true ∧
      validate_loan_amount (carValue - depositAmount + 0.02) carValue depositAmount =
        Except.error "Loan amount must equal car value minus deposit") := by
  constructor
  · by_cases h : |v - max 0 (carValue - depositAmount)| > 0.01
    · simp [validate_loan_amount, h, Except.toBool, not_le.mpr h]
    · simp [validate_loan_amount, h, Except.toBool, not_lt.mp h]
  · intro hcd
    have hmax : max 0 (carValue - depositAmount) = carValue - depositAmount :=
      max_eq_right (by linarith)
    have e1 : carValue - depositAmount + 0.01 - max 0 (carValue - depositAmount) = 0.01 := by
      rw [hmax]; ring
    have e2 : carValue - depositAmount + 0.02 - max 0 (carValue - depositAmount) = 0.02 := by
      rw [hmax]; ring
    constructor
    · simp only [validate_loan_amount, e1]
      have habs : |(1 / 100 : ℚ)| = 1 / 100 := abs_of_pos (by norm_num)
      norm_num [habs, Except.toBool]
    · simp only [validate_loan_amount, e2]
      norm_num [lt_abs]

/-- Witness for C3 (amended) at `carValue = 20000`, `depositAmount = 5000`,
`loanAmount = 15000`. -/
theorem C3_witness :
    ((validate_loan_amount 15000 20000 5000).toBool = true ↔
      |(15000 : ℚ) - max 0 (20000 - 5000)| ≤ 0.01) ∧
    (validate_loan_amount ((20000 : ℚ) - 5000 + 0.01) 20000 5000).toBool = true ∧
    validate_loan_amount ((20000 : ℚ) - 5000 + 0.02) 20000 5000 =
      Except.error "Loan amount must equal car value minus deposit" :=
  ⟨(C3_loan_amount_tolerance 15000 20000 5000).1,
   ((C3_loan_amount_tolerance 0 20000 5000).2 (by norm_num)).1,
   ((C3_loan_amount_tolerance 0 20000 5000).2 (by norm_num)).2⟩

/-- Claim C7 fails as stated: the loan-amount mismatch error does not
carry the expected value `max(0, carValue - depositAmount)` — the raised
message is the same fixed string for two inputs whose expected values
differ (`100` versus `7`), so the surfaced detail cannot carry the
expected value. -/
theorem C7_counterexample :
    validate_loan_amount 50 100 0 =
      Except.error "Loan amount must equal car value minus deposit" ∧
    validate_loan_amount 50 7 0 =
      Except.error "Loan amount must equal car value minus deposit" ∧
    max 0 ((100 : ℚ) - 0) ≠ max 0 ((7 : ℚ) - 0) := by
  refine ⟨?_, ?_, by norm_num⟩ <;> norm_num [validate_loan_amount, lt_abs]

/-- Claim C7 (amended): when the cross-field check fails, the validation
error carries the fixed message "Loan amount must equal car value minus
deposit"; the expected value does not appear in the surfaced detail. -/
theorem C7_mismatch_error_detail (v carValue depositAmount : ℚ)
    (h : |v - max 0 (carValue - depositAmount)| > 0.01) :
    validate_loan_amount v carValue depositAmount =
      Except.error "Loan amount must equal car value minus deposit" := by
  simp [validate_loan_amount, h]

/-- Witness for C7 (amended) at `v = 50`, `carValue = 100`,
`depositAmount = 0`. -/
theorem C7_witness :
    validate_loan_amount 50 100 0 =
      Except.error "Loan amount must equal car value minus deposit" :=
  C7_mismatch_error_detail 50 100 0 (by norm_num [lt_abs])

/-- Claim C4: age is computed from the strictly parsed `YYYY-MM-DD`
birthdate as current year minus birth year, decremented by one when the
current (month, day) precedes the birth (month, day); for every
evaluation date, a birthdate exactly 18 years before today (same month
and day) is accepted, and a birthdate one day short of 18 years (18
years before the day after today) is rejected. -/
theorem C4_age_boundary (today : Date) (dob1 dob2 : String)
    (hvalid : isValidDate today = true) (hy : 18 ≤ today.year)
    (h1 : parseDate dob1 = some ⟨today.year - 18, today.month, today.day⟩)
    (h2 : parseDate dob2 =
      some ⟨(nextDay today).year - 18, (nextDay today).month, (nextDay today).day⟩) :
    validate_age today dob1 = true ∧ validate_age today dob2 = false := by
  simp only [isValidDate, Bool.and_eq_true, decide_eq_true_eq] at hvalid
  obtain ⟨⟨⟨⟨hy1, hm1⟩, hm12⟩, hd1⟩, hdim⟩ := hvalid
  constructor
  · simp only [validate_age, h1]
    rw [decide_eq_true_eq]
    have hlt : monthDayLt (today.month, today.day) (today.month, today.day) = false := by
      simp [monthDayLt]
    simp only [computeAge, hlt, Bool.false_eq_true, if_false]
    omega
  · simp only [validate_age, h2]
    rw [decide_eq_false_iff_not]
    by_cases hd : today.day < daysInMonth today.year today.month
    · have hnext : nextDay today = ⟨today.year, today.month, today.day + 1⟩ := by
        simp [nextDay, hd]
      rw [hnext]
      have hlt : monthDayLt (today.month, today.day) (today.month, today.day + 1) = true := by
        simp [monthDayLt]
      simp only [computeAge, hlt, if_true]
      omega
    · by_cases hm : today.month < 12
      · have hnext : nextDay today = ⟨today.year, today.month + 1, 1⟩ := by
          simp [nextDay, hd, hm]
        rw [hnext]
        have hlt : monthDayLt (today.month, today.day) (today.month + 1, 1) = true := by
          simp [monthDayLt]
        simp only [computeAge, hlt, if_true]
        omega
      · have hmon : today.month = 12 := by omega
        have hnext : nextDay today = ⟨today.year + 1, 1, 1⟩ := by
          simp [nextDay, hd, hm]
        rw [hnext]
        have hlt : monthDayLt (today.month, today.day) (1, 1) = false := by
          simp [monthDayLt, hmon]
        simp only [computeAge, hlt, Bool.false_eq_true, if_false]
        omega

/-- Witness for C4, evaluated on 2026-10-12: a birthdate of 2008-10-12
(exactly 18) is accepted, a birthdate of 2008-10-13 (one day short) is
rejected. -/
theorem C4_witness :
    validate_age ⟨2026, 10, 12⟩ "2008-10-12" = true ∧
    validate_age ⟨2026, 10, 12⟩ "2008-10-13" = false :=
  C4_age_boundary ⟨2026, 10, 12⟩ "2008-10-12" "2008-10-13"
    (by decide) (by norm_num) (by decide) (by decide)

/-- Claim C2: creating an application and then listing summaries yields
a summary whose id, name, employmentStatus, income, loanAmount,
decisionCode and status are exactly those of the created record. -/
theorem C2_create_then_list (today : Date) (a : ApplicationIn)
    (freshId createdAt now : String) (disk : DiskState)
    (_hvalid : validateApplication today a = true) :
    ∃ s ∈ get_applications now (create_application a freshId createdAt disk false).2,
      (create_application a freshId createdAt disk false).1.id = some s.id ∧
      (create_application a freshId createdAt disk false).1.name = some s.name ∧
      (create_application a freshId createdAt disk false).1.employmentStatus =
        some s.employmentStatus ∧
      (create_application a freshId createdAt disk false).1.income = some s.income ∧
      (create_application a freshId createdAt disk false).1.loanAmount = some s.loanAmount ∧
      (create_application a freshId createdAt disk false).1.decisionCode = s.decisionCode ∧
      (create_application a freshId createdAt disk false).1.status = some s.status := by
  refine ⟨toSummary now (new_app a freshId createdAt), ?_, ?_⟩
  · simp [get_applications, create_application, save_applications, load_applications,
      List.mem_map]
  · simp [create_application, new_app, toSummary]

/-- Witness for C2 at a concrete valid input on an empty store. -/
theorem C2_witness :
    ∃ s ∈ get_applications "T0"
        (create_application ⟨"Ana", "1990-01-01", "1 Road", "DL1", "employed", 50000, 20000, 5000, 15000⟩
          "id-1" "T1" .absent false).2,
      (create_application ⟨"Ana", "1990-01-01", "1 Road", "DL1", "employed", 50000, 20000, 5000, 15000⟩
          "id-1" "T1" .absent false).1.id = some s.id ∧
      (create_application ⟨"Ana", "1990-01-01", "1 Road", "DL1", "employed", 50000, 20000, 5000, 15000⟩
          "id-1" "T1" .absent false).1.name = some s.name ∧
      (create_application ⟨"Ana", "1990-01-01", "1 Road", "DL1", "employed", 50000, 20000, 5000, 15000⟩
          "id-1" "T1" .absent false).1.employmentStatus = some s.employmentStatus ∧
      (create_application ⟨"Ana", "1990-01-01", "1 Road", "DL1", "employed", 50000, 20000, 5000, 15000⟩
          "id-1" "T1" .absent false).1.income = some s.income ∧
      (create_application ⟨"Ana", "1990-01-01", "1 Road", "DL1", "employed", 50000, 20000, 5000, 15000⟩
          "id-1" "T1" .absent false).1.loanAmount = some s.loanAmount ∧
      (create_application ⟨"Ana", "1990-01-01", "1 Road", "DL1", "employed", 50000, 20000, 5000, 15000⟩
          "id-1" "T1" .absent false).1.decisionCode = s.decisionCode ∧
      (create_application ⟨"Ana", "1990-01-01", "1 Road", "DL1", "employed", 50000, 20000, 5000, 15000⟩
          "id-1" "T1" .absent false).1.status = some s.status :=
  C2_create_then_list ⟨2026, 10, 12⟩ _ "id-1" "T1" "T0" .absent (by
    have h : validate_age ⟨2026, 10, 12⟩ "1990-01-01" = true := by decide
    norm_num [validateApplication, h, validate_loan_amount, Except.toBool, abs_le])

/-- Claim C5: a storage write failure is swallowed: `create_application`
still returns the constructed record as a success (HTTP 201) while the
persisted collection is left unchanged, so the append appears to succeed
without the record being persisted. -/
theorem C5_write_failure_swallowed (today : Date) (a : ApplicationIn)
    (freshId createdAt : String) (disk : DiskState)
    (_hvalid : validateApplication today a = true) :
    (create_application a freshId createdAt disk true).1 = new_app a freshId createdAt ∧
    (create_application a freshId createdAt disk true).2 = disk := by
  constructor
  · rfl
  · simp [create_application, save_applications]

/-- Witness for C5 at a concrete valid input over a non-empty store. -/
theorem C5_witness :
    (create_application ⟨"Ana", "1990-01-01", "1 Road", "DL1", "employed", 50000, 20000, 5000, 15000⟩
        "id-1" "T1" (.ok []) true).1 =
      new_app ⟨"Ana", "1990-01-01", "1 Road", "DL1", "employed", 50000, 20000, 5000, 15000⟩
        "id-1" "T1" ∧
    (create_application ⟨"Ana", "1990-01-01", "1 Road", "DL1", "employed", 50000, 20000, 5000, 15000⟩
        "id-1" "T1" (.ok []) true).2 = .ok [] :=
  C5_write_failure_swallowed ⟨2026, 10, 12⟩ _ "id-1" "T1" (.ok []) (by
    have h : validate_age ⟨2026, 10, 12⟩ "1990-01-01" = true := by decide
    norm_num [validateApplication, h, validate_loan_amount, Except.toBool, abs_le])

/-- Claim C6: `load_applications` returns the full persisted collection
in storage order, and returns an empty list — without raising — when no
persisted data exists or the persisted data is undecodable. -/
theorem C6_load_all (records : List StoredRecord) :
    load_applications (.ok records) = records ∧
    load_applications .absent = [] ∧
    load_applications .corrupt = [] :=
  ⟨rfl, rfl, rfl⟩

/-- Claim C8: listing summaries is total on every stored collection and
projects each record field-by-field, defaulting a missing id, name,
employmentStatus or status to the empty string, a missing income or
loanAmount to 0, and a missing decisionCode to absent. -/
theorem C8_summary_defaults (now : String) (disk : DiskState) :
    (get_applications now disk).length = (load_applications disk).length ∧
    ∀ (i : ℕ) (r : StoredRecord), (load_applications disk)[i]? = some r →
      (get_applications now disk)[i]? = some
        { id := r.id.getD ""
          name := r.name.getD ""
          employmentStatus := r.employmentStatus.getD ""
          income := r.income.getD 0
          loanAmount := r.loanAmount.getD 0
          decisionCode := r.decisionCode
          status := r.status.getD ""
          createdAt := r.createdAt.getD now } := by
  constructor
  · simp [get_applications]
  · intro i r h
    simp [get_applications, List.getElem?_map, h, toSummary]

/-- Witness for C8 on a store holding one record with every field
missing: the summary is the all-placeholder summary. -/
theorem C8_witness :
    (get_applications "T0"
        (.ok [⟨none, none, none, none, none, none, none, none, none, none, none, none, none⟩]))[0]? =
      some ⟨"", "", "", 0, 0, none, "", "T0"⟩ :=
  (C8_summary_defaults "T0"
      (.ok [⟨none, none, none, none, none, none, none, none, none, none, none, none, none⟩])).2
    0 ⟨none, none, none, none, none, none, none, none, none, none, none, none, none⟩ rfl

/-- Claim C9: frame property of creation: for every valid input and
every prior persisted collection, a successful `create_application`
saves exactly the prior collection with the single new record appended —
each previously persisted record is unchanged and keeps its position,
and the length grows by exactly one. -/
theorem C9_create_frame (today : Date) (a : ApplicationIn)
    (freshId createdAt : String) (store : List StoredRecord)
    (_hvalid : validateApplication today a = true) :
    (create_application a freshId createdAt (.ok store) false).2 =
      .ok (store ++ [new_app a freshId createdAt]) ∧
    (load_applications (create_application a freshId createdAt (.ok store) false).2).length =
      store.length + 1 ∧
    ∀ i : ℕ, i < store.length →
      (load_applications (create_application a freshId createdAt (.ok store) false).2)[i]? =
        store[i]? := by
  refine ⟨rfl, by simp [create_application, save_applications, load_applications], ?_⟩
  intro i hi
  simp [create_application, save_applications, load_applications,
    List.getElem?_append, hi]

/-- Witness for C9 on a one-record prior collection. -/
theorem C9_witness :
    (create_application ⟨"Ana", "1990-01-01", "1 Road", "DL1", "employed", 50000, 20000, 5000, 15000⟩
        "id-2" "T2"
        (.ok [new_app ⟨"Bob", "1980-05-05", "2 Road", "DL2", "unemployed", 0, 0, 0, 0⟩ "id-1" "T1"])
        false).2 =
      .ok ([new_app ⟨"Bob", "1980-05-05", "2 Road", "DL2", "unemployed", 0, 0, 0, 0⟩ "id-1" "T1"] ++
        [new_app ⟨"Ana", "1990-01-01", "1 Road", "DL1", "employed", 50000, 20000, 5000, 15000⟩
          "id-2" "T2"]) :=
  (C9_create_frame ⟨2026, 10, 12⟩ _ "id-2" "T2"
    [new_app ⟨"Bob", "1980-05-05", "2 Road", "DL2", "unemployed", 0, 0, 0, 0⟩ "id-1" "T1"] (by
      have h : validate_age ⟨2026, 10, 12⟩ "1990-01-01" = true := by decide
      norm_num [validateApplication, h, validate_loan_amount, Except.toBool, abs_le])).1

end LoanApp
